import Mathlib

/-!
Shallow embedding of the billing-state reconciliation core of the
spotify-clone repository (src/libs/supabaseAdmin.ts).

Tables of the backing store are association lists keyed by their primary
key; external effects (payment-provider calls) are recorded in a trace;
storage and provider faults are injected through an environment record so
that error-propagation behaviour can be stated and proved.
-/

/-- Opaque key-value metadata map carried by provider objects. -/
def Metadata := List (String × String)
deriving DecidableEq

/-- Structured billing address attached to a payment method. -/
structure Address where
  line1 : String
  city : String
  country : String
deriving DecidableEq

/-- Errors returned by the storage collaborator: a not-found outcome of a
single-row select, or any other storage fault (carrying an opaque code). -/
inductive DBError where
  | notFound
  | storageFault (code : Nat)
deriving DecidableEq

/-- Errors propagated out of a core operation: a thrown storage error, a
provider-API fault, or a JavaScript runtime type error (reading a property
of undefined). -/
inductive Err where
  | dbError (e : DBError)
  | stripeError
  | typeError
deriving DecidableEq

/-- Modelled from the spec: `toDateTime` (src/libs/helpers.ts, absent from
the provided sources) translates a provider timestamp in Unix epoch seconds
into an absolute, timezone-normalized point in time. -/
structure DateTime where
  epochSeconds : Int
deriving DecidableEq

/-- Modelled from the spec: the absolute, timezone-normalized timestamp
string stored in a row, identified by its UTC seconds. -/
structure Timestamp where
  utcSeconds : Int
deriving DecidableEq

/-- Modelled from the spec: conversion of epoch seconds to a `DateTime`. -/
def toDateTime (secs : Int) : DateTime :=
  { epochSeconds := secs }

/-- Modelled from the spec: serialization of a `DateTime` to the stored
timestamp representation. -/
def DateTime.toISOString (d : DateTime) : Timestamp :=
  { utcSeconds := d.epochSeconds }

/-- JavaScript truthiness of a nullable string: `null` and `""` are falsy. -/
def truthyStr : Option String → Bool
  | none => false
  | some s => s ≠ ""

/-- JavaScript truthiness of a nullable number: `null` and `0` are falsy. -/
def truthyInt : Option Int → Bool
  | none => false
  | some n => n ≠ 0

/-- Stripe product payload as received from the provider. -/
structure StripeProduct where
  id : String
  active : Bool
  name : String
  description : Option String
  images : List String
  metadata : Metadata
deriving DecidableEq

/-- The `product` field of a price: either a direct string reference to the
product id or an expanded/embedded product object. -/
inductive ProductRef where
  | ref (id : String)
  | expanded (obj : StripeProduct)
deriving DecidableEq

/-- The `recurring` block of a Stripe price. -/
structure Recurring where
  interval : String
  interval_count : Int
  trial_period_days : Option Int
deriving DecidableEq

/-- Stripe price payload as received from the provider. -/
structure StripePrice where
  id : String
  product : ProductRef
  active : Bool
  currency : String
  nickname : Option String
  type : String
  unit_amount : Option Int
  recurring : Option Recurring
  metadata : Metadata
deriving DecidableEq

/-- Billing details carried by a payment method; every field is nullable on
the provider side. -/
structure BillingDetails where
  name : Option String
  phone : Option String
  address : Option Address
deriving DecidableEq

/-- Stripe payment method: the owning provider customer id, the billing
details, the method type tag, and the type-keyed detail blob
(`payment_method[payment_method.type]`). -/
structure PaymentMethod where
  customer : String
  billing_details : BillingDetails
  type : String
  typeDetails : Metadata
deriving DecidableEq

/-- One element of `subscription.items.data`. -/
structure SubItem where
  priceId : String
deriving DecidableEq

/-- Stripe subscription object as fetched from the provider with
`default_payment_method` expanded. -/
structure StripeSubscription where
  id : String
  metadata : Metadata
  status : String
  items : List SubItem
  quantity : Int
  cancel_at_period_end : Bool
  cancel_at : Option Int
  canceled_at : Option Int
  current_period_start : Int
  current_period_end : Int
  created : Int
  ended_at : Option Int
  trial_start : Option Int
  trial_end : Option Int
  default_payment_method : Option PaymentMethod
deriving DecidableEq

/-- Row of the `products` table. -/
structure ProductRow where
  id : String
  active : Bool
  name : String
  description : Option String
  image : Option String
  metadata : Metadata
deriving DecidableEq

/-- Row of the `prices` table. -/
structure PriceRow where
  id : String
  product_id : String
  active : Bool
  currency : String
  description : Option String
  type : String
  unit_amount : Option Int
  interval : Option String
  interval_count : Option Int
  trial_period_days : Option Int
  metadata : Metadata
deriving DecidableEq

/-- Row of the `customers` table: local user id mapped to the provider
customer id. -/
structure CustomerRow where
  id : String
  stripe_customer_id : Option String
deriving DecidableEq

/-- Row of the `subscriptions` table. -/
structure SubscriptionRow where
  id : String
  user_id : String
  metadata : Metadata
  status : String
  price_id : String
  quantity : Int
  cancel_at_period_end : Bool
  cancel_at : Option Timestamp
  canceled_at : Option Timestamp
  current_period_start : Timestamp
  current_period_end : Timestamp
  created : Timestamp
  ended_at : Option Timestamp
  trial_start : Option Timestamp
  trial_end : Option Timestamp
deriving DecidableEq

/-- Row of the `users` table (only the fields this core writes). -/
structure UserRow where
  id : String
  billing_address : Option Address
  payment_method : Option Metadata
deriving DecidableEq

/-- The backing store: the five tables the core touches. -/
structure DB where
  products : List ProductRow
  prices : List PriceRow
  customers : List CustomerRow
  subscriptions : List SubscriptionRow
  users : List UserRow
deriving DecidableEq

/-- Externally observable provider calls made during a run. -/
inductive Eff where
  | stripeCreateCustomer (metadata : Metadata) (email : Option String)
  | stripeRetrieveSubscription (id : String)
  | stripeUpdateCustomer (id : String) (name : String) (phone : String) (address : Address)
  | invokeBilling (uuid : String)
deriving DecidableEq

/-- Environment of a run: the id the provider mints for a created customer,
the subscriptions held by the provider (`none` models a fetch failure), and
injectable storage/provider faults for each external write or read. -/
structure Env where
  stripeCreateCustomerId : String
  retrieveSubscription : String → Option StripeSubscription
  customersLookupFault : Option DBError
  reverseLookupFault : Option DBError
  productsUpsertFault : Option DBError
  pricesUpsertFault : Option DBError
  subscriptionsUpsertFault : Option DBError
  customersInsertFault : Option DBError
  usersUpdateFault : Option DBError
  stripeUpdateCustomerFault : Bool

instance {ε α : Type} [DecidableEq ε] [DecidableEq α] : DecidableEq (Except ε α) :=
  fun x y =>
    match x, y with
    | Except.ok a, Except.ok b =>
        if h : a = b then Decidable.isTrue (congrArg Except.ok h)
        else Decidable.isFalse (fun hc => h (Except.ok.inj hc))
    | Except.error a, Except.error b =>
        if h : a = b then Decidable.isTrue (congrArg Except.error h)
        else Decidable.isFalse (fun hc => h (Except.error.inj hc))
    | Except.ok _, Except.error _ => Decidable.isFalse (fun hc => Except.noConfusion hc)
    | Except.error _, Except.ok _ => Decidable.isFalse (fun hc => Except.noConfusion hc)

/-- Outcome of one core operation: the propagated result, the final state of
the backing store, and the trace of provider calls issued. -/
structure RunResult (α : Type) where
  result : Except Err α
  db : DB
  trace : List Eff
deriving DecidableEq

/-- Insert-or-replace by key: replaces the first row with the same key,
appends when no row matches (upsert by primary key, full-row replace). -/
def upsertRow {α : Type} (key : α → String) (row : α) : List α → List α
  | [] => [row]
  | r :: rs => if key r = key row then row :: rs else r :: upsertRow key row rs

/-- First row with the given key, if any. -/
def findRow {α : Type} (key : α → String) (k : String) (l : List α) : Option α :=
  l.find? (fun r => key r = k)

/-- `upsertProductRecord` (src/libs/supabaseAdmin.ts:23): builds the product
row from the provider payload and upserts it into `products`, throwing any
storage error. -/
def upsertProductRecord (env : Env) (db : DB) (product : StripeProduct) :
    RunResult Unit :=
  let productData : ProductRow :=
    { id := product.id
      active := product.active
      name := product.name
      description := product.description
      image := product.images.head?
      metadata := product.metadata }
  match env.productsUpsertFault with
  | some e => { result := .error (.dbError e), db := db, trace := [] }
  | none =>
      { result := .ok ()
        db := { db with products := upsertRow ProductRow.id productData db.products }
        trace := [] }

/-- The price row built at src/libs/supabaseAdmin.ts:53-65: the
`product_id` is the provider reference when the product is a string, and
the empty string when it is an expanded object. -/
def buildPriceRow (price : StripePrice) : PriceRow :=
  { id := price.id
    product_id := match price.product with
      | .ref s => s
      | .expanded _ => ""
    active := price.active
    currency := price.currency
    description := price.nickname
    type := price.type
    unit_amount := price.unit_amount
    interval := price.recurring.map Recurring.interval
    interval_count := price.recurring.map Recurring.interval_count
    trial_period_days := price.recurring.bind Recurring.trial_period_days
    metadata := price.metadata }

/-- `upsertPriceRecord` (src/libs/supabaseAdmin.ts:52): builds the price row
and upserts it into `prices`, throwing any storage error. -/
def upsertPriceRecord (env : Env) (db : DB) (price : StripePrice) :
    RunResult Unit :=
  let priceData : PriceRow := buildPriceRow price
  match env.pricesUpsertFault with
  | some e => { result := .error (.dbError e), db := db, trace := [] }
  | none =>
      { result := .ok ()
        db := { db with prices := upsertRow PriceRow.id priceData db.prices }
        trace := [] }

/-- The `.single()` select of `customers` by primary key `id`
(src/libs/supabaseAdmin.ts:89-93): an injected fault takes precedence;
otherwise the row is returned, or a not-found error when absent. -/
def customersSelectById (env : Env) (db : DB) (uuid : String) :
    Except DBError CustomerRow :=
  match env.customersLookupFault with
  | some e => .error e
  | none =>
      match findRow CustomerRow.id uuid db.customers with
      | some c => .ok c
      | none => .error .notFound

/-- `createOrRetrieveCustomer` (src/libs/supabaseAdmin.ts:87): looks up the
customer row; on any lookup error or a falsy `stripe_customer_id` it creates
a provider-side customer (email attached only when truthy) and inserts the
mapping locally, throwing any insert error; otherwise it returns the stored
provider customer id with no provider call and no write. -/
def createOrRetrieveCustomer (env : Env) (db : DB) (email uuid : String) :
    RunResult String :=
  let lookup := customersSelectById env db uuid
  let createBranch : RunResult String :=
    let customerEmail : Option String := if email ≠ "" then some email else none
    let newId := env.stripeCreateCustomerId
    let effs := [Eff.stripeCreateCustomer [("supabaseUUID", uuid)] customerEmail]
    match env.customersInsertFault with
    | some e => { result := .error (.dbError e), db := db, trace := effs }
    | none =>
        { result := .ok newId
          db := { db with customers :=
            db.customers ++ [{ id := uuid, stripe_customer_id := some newId }] }
          trace := effs }
  match lookup with
  | .ok c =>
      match c.stripe_customer_id with
      | some s => if s = "" then createBranch
          else { result := .ok s, db := db, trace := [] }
      | none => createBranch
  | .error _ => createBranch

/-- `copyBillingDetailsToCustomer` (src/libs/supabaseAdmin.ts:130): returns
silently when any of name, phone or address is falsy; otherwise updates the
provider customer and then the local user row, throwing a storage error of
the local update. -/
def copyBillingDetailsToCustomer (env : Env) (db : DB) (uuid : String)
    (payment_method : PaymentMethod) : RunResult Unit :=
  let customer := payment_method.customer
  match payment_method.billing_details.name,
        payment_method.billing_details.phone,
        payment_method.billing_details.address with
  | some n, some p, some a =>
      if n = "" ∨ p = "" then { result := .ok (), db := db, trace := [] }
      else
        let effs := [Eff.stripeUpdateCustomer customer n p a]
        if env.stripeUpdateCustomerFault then
          { result := .error .stripeError, db := db, trace := effs }
        else
          match env.usersUpdateFault with
          | some e => { result := .error (.dbError e), db := db, trace := effs }
          | none =>
              { result := .ok ()
                db := { db with users := db.users.map (fun u =>
                  if u.id = uuid then
                    { u with
                        billing_address := some a,
                        payment_method := some payment_method.typeDetails }
                  else u) }
                trace := effs }
  | _, _, _ => { result := .ok (), db := db, trace := [] }

/-- The `.single()` reverse lookup of `customers` by `stripe_customer_id`
(src/libs/supabaseAdmin.ts:166-170). -/
def customersReverseLookup (env : Env) (db : DB) (customerId : String) :
    Except DBError CustomerRow :=
  match env.reverseLookupFault with
  | some e => .error e
  | none =>
      match db.customers.find? (fun c => c.stripe_customer_id = some customerId) with
      | some c => .ok c
      | none => .error .notFound

/-- The nullable-timestamp translation of src/libs/supabaseAdmin.ts:193-200:
`field ? toDateTime(field).toISOString() : null` under JavaScript
truthiness, so `null` and `0` both store `null`. -/
def tsField (v : Option Int) : Option Timestamp :=
  if truthyInt v then
    match v with
    | some s => some (toDateTime s).toISOString
    | none => none
  else none

/-- The subscription row built at src/libs/supabaseAdmin.ts:183-201 from the
fetched subscription, the resolved local user id and the first subscription
item. -/
def buildSubscriptionRow (uuid : String) (s : StripeSubscription)
    (item0 : SubItem) : SubscriptionRow :=
  { id := s.id
    user_id := uuid
    metadata := s.metadata
    status := s.status
    price_id := item0.priceId
    quantity := s.quantity
    cancel_at_period_end := s.cancel_at_period_end
    cancel_at := tsField s.cancel_at
    canceled_at := tsField s.canceled_at
    current_period_start := (toDateTime s.current_period_start).toISOString
    current_period_end := (toDateTime s.current_period_end).toISOString
    created := (toDateTime s.created).toISOString
    ended_at := tsField s.ended_at
    trial_start := tsField s.trial_start
    trial_end := tsField s.trial_end }

/-- `manageSubscriptionStatusChange` (src/libs/supabaseAdmin.ts:161):
reverse-looks-up the customer (throwing its error), fetches the subscription
from the provider with the default payment method expanded, reads
`items.data[0].price.id` (a runtime type error when the items list is
empty), upserts the built row into `subscriptions` (throwing any storage
error), and finally, when `createAction` is set and the subscription carries
a truthy expanded default payment method and the resolved uuid is truthy,
invokes `copyBillingDetailsToCustomer`. -/
def manageSubscriptionStatusChange (env : Env) (db : DB)
    (subscriptionId customerId : String) (createAction : Bool) :
    RunResult Unit :=
  match customersReverseLookup env db customerId with
  | .error e => { result := .error (.dbError e), db := db, trace := [] }
  | .ok customerData =>
      let uuid := customerData.id
      match env.retrieveSubscription subscriptionId with
      | none =>
          { result := .error .stripeError, db := db
            trace := [Eff.stripeRetrieveSubscription subscriptionId] }
      | some subscription =>
          let effs := [Eff.stripeRetrieveSubscription subscriptionId]
          match subscription.items.head? with
          | none => { result := .error .typeError, db := db, trace := effs }
          | some item0 =>
              let subscriptionData := buildSubscriptionRow uuid subscription item0
              match env.subscriptionsUpsertFault with
              | some e => { result := .error (.dbError e), db := db, trace := effs }
              | none =>
                  let subs1 := upsertRow SubscriptionRow.id subscriptionData db.subscriptions
                  let db1 := { db with subscriptions := subs1 }
                  if createAction then
                    match subscription.default_payment_method with
                    | some pm =>
                        if uuid ≠ "" then
                          let inner := copyBillingDetailsToCustomer env db1 uuid pm
                          { result := inner.result
                            db := inner.db
                            trace := effs ++ Eff.invokeBilling uuid :: inner.trace }
                        else { result := .ok (), db := db1, trace := effs }
                    | none => { result := .ok (), db := db1, trace := effs }
                  else { result := .ok (), db := db1, trace := effs }

/-! ## Concrete fixtures used by witnesses and counterexamples -/

/-- A concrete billing address. -/
def addrW : Address :=
  { line1 := "1 Main St", city := "Springfield", country := "US" }

/-- A payment method carrying complete billing details. -/
def pmW : PaymentMethod :=
  { customer := "cus_w"
    billing_details := { name := some "Ada", phone := some "555", address := some addrW }
    type := "card"
    typeDetails := [("brand", "visa")] }

/-- A fetched subscription with one item, a present `cancel_at` of exactly 0,
absent `canceled_at`/`ended_at`, present trial bounds, and an expanded
default payment method. -/
def subW : StripeSubscription :=
  { id := "sub_w"
    metadata := []
    status := "active"
    items := [{ priceId := "price_w" }]
    quantity := 1
    cancel_at_period_end := false
    cancel_at := some 0
    canceled_at := none
    current_period_start := 100
    current_period_end := 200
    created := 50
    ended_at := none
    trial_start := some 400
    trial_end := some 500
    default_payment_method := some pmW }

/-- An environment with no injected faults whose provider knows only
`subW` under the id `sub_w`. -/
def envW : Env :=
  { stripeCreateCustomerId := "cus_new"
    retrieveSubscription := fun sid => if sid = "sub_w" then some subW else none
    customersLookupFault := none
    reverseLookupFault := none
    productsUpsertFault := none
    pricesUpsertFault := none
    subscriptionsUpsertFault := none
    customersInsertFault := none
    usersUpdateFault := none
    stripeUpdateCustomerFault := false }

/-- A store holding the customer mapping `user_w ↦ cus_w` and the row of
that user. -/
def dbW : DB :=
  { products := []
    prices := []
    customers := [{ id := "user_w", stripe_customer_id := some "cus_w" }]
    subscriptions := []
    users := [{ id := "user_w", billing_address := none, payment_method := none }] }

/-- A payment method whose billing details lack a phone number. -/
def pmNoPhone : PaymentMethod :=
  { customer := "cus_w"
    billing_details := { name := some "Ada", phone := none, address := some addrW }
    type := "card"
    typeDetails := [("brand", "visa")] }

/-- A fetched subscription whose items list is empty. -/
def subE : StripeSubscription :=
  { id := "sub_e"
    metadata := []
    status := "active"
    items := []
    quantity := 1
    cancel_at_period_end := false
    cancel_at := none
    canceled_at := none
    current_period_start := 100
    current_period_end := 200
    created := 50
    ended_at := none
    trial_start := none
    trial_end := none
    default_payment_method := none }

/-- An environment whose provider knows only `subE` under the id `sub_e`. -/
def envE : Env :=
  { envW with retrieveSubscription := fun sid => if sid = "sub_e" then some subE else none }

/-- An environment injecting a storage fault into the customers lookup. -/
def envFaultLookup : Env :=
  { envW with customersLookupFault := some (.storageFault 3) }

/-- An environment injecting a storage fault into the users update. -/
def envFaultUsers : Env :=
  { envW with usersUpdateFault := some (.storageFault 7) }

/-- An environment whose provider-side customer update fails. -/
def envFaultStripe : Env :=
  { envW with stripeUpdateCustomerFault := true }

/-- A store whose only customer mapping carries an empty local user id. -/
def dbEmptyUuid : DB :=
  { products := []
    prices := []
    customers := [{ id := "", stripe_customer_id := some "cus_w" }]
    subscriptions := []
    users := [] }

/-- A concrete price payload whose product is a direct string reference. -/
def priceRefW : StripePrice :=
  { id := "price_w"
    product := .ref "prod_w"
    active := true
    currency := "usd"
    nickname := none
    type := "recurring"
    unit_amount := some 999
    recurring := some { interval := "month", interval_count := 1, trial_period_days := none }
    metadata := [] }

/-- Behaviour of the five nullable timestamp columns of the stored
subscription row relative to the fetched provider object: an absent provider
value is stored as null, a present nonzero value is translated to an
absolute point in time, and a present value of exactly 0 is stored as null
(JavaScript truthiness of the source guard). -/
def NullableFieldSpec (sub : StripeSubscription) (row : SubscriptionRow) : Prop :=
  (sub.cancel_at = none → row.cancel_at = none)
  ∧ (∀ s : Int, s ≠ 0 → sub.cancel_at = some s →
      row.cancel_at = some ((toDateTime s).toISOString))
  ∧ (sub.cancel_at = some 0 → row.cancel_at = none)
  ∧ (sub.canceled_at = none → row.canceled_at = none)
  ∧ (∀ s : Int, s ≠ 0 → sub.canceled_at = some s →
      row.canceled_at = some ((toDateTime s).toISOString))
  ∧ (sub.canceled_at = some 0 → row.canceled_at = none)
  ∧ (sub.ended_at = none → row.ended_at = none)
  ∧ (∀ s : Int, s ≠ 0 → sub.ended_at = some s →
      row.ended_at = some ((toDateTime s).toISOString))
  ∧ (sub.ended_at = some 0 → row.ended_at = none)
  ∧ (sub.trial_start = none → row.trial_start = none)
  ∧ (∀ s : Int, s ≠ 0 → sub.trial_start = some s →
      row.trial_start = some ((toDateTime s).toISOString))
  ∧ (sub.trial_start = some 0 → row.trial_start = none)
  ∧ (sub.trial_end = none → row.trial_end = none)
  ∧ (∀ s : Int, s ≠ 0 → sub.trial_end = some s →
      row.trial_end = some ((toDateTime s).toISOString))
  ∧ (sub.trial_end = some 0 → row.trial_end = none)

/-- A store holding only the customer mapping `user_e ↦ cus_e`. -/
def dbE : DB :=
  { products := []
    prices := []
    customers := [{ id := "user_e", stripe_customer_id := some "cus_e" }]
    subscriptions := []
    users := [] }

/-! ## Helper lemmas -/

theorem upsertRow_idem {α : Type} (key : α → String) (row : α) (l : List α) :
    upsertRow key row (upsertRow key row l) = upsertRow key row l := by
  induction l with
  | nil => simp [upsertRow]
  | cons r rs ih =>
      by_cases h : key r = key row
      · simp [upsertRow, h]
      · simp [upsertRow, h, ih]

theorem findRow_upsertRow {α : Type} (key : α → String) (row : α) (l : List α) :
    findRow key (key row) (upsertRow key row l) = some row := by
  induction l with
  | nil => simp [upsertRow, findRow]
  | cons r rs ih =>
      by_cases h : key r = key row
      · simp [upsertRow, findRow, h]
      · simp [upsertRow, findRow, h] at ih ⊢
        exact ih

/-! ## Claims -/

/-- C1: for a `providerCustomerId` with no matching Customer row, the
reverse-lookup error propagates out of `manageSubscriptionStatusChange`, the
store is untouched (no Subscription row written) and no provider call is
issued, so the failure happens before the provider fetch and before the
subscription upsert. -/
theorem c1_sync_unknown_customer_fails_clean
    (env : Env) (db : DB) (subscriptionId customerId : String) (createAction : Bool)
    (hfault : env.reverseLookupFault = none)
    (habsent : ∀ c ∈ db.customers, c.stripe_customer_id ≠ some customerId) :
    manageSubscriptionStatusChange env db subscriptionId customerId createAction =
      { result := .error (.dbError .notFound), db := db, trace := [] } := by
  have hfind : db.customers.find? (fun c => c.stripe_customer_id = some customerId) = none := by
    rw [List.find?_eq_none]
    intro c hc
    simpa using habsent c hc
  simp [manageSubscriptionStatusChange, customersReverseLookup, hfault, hfind]

/-- C1 witness: a concrete run against an empty store. -/
theorem c1_sync_unknown_customer_fails_clean_witness :
    manageSubscriptionStatusChange envW
      { products := [], prices := [], customers := [], subscriptions := [], users := [] }
      "sub_w" "cus_missing" true =
      { result := .error (.dbError .notFound)
        db := { products := [], prices := [], customers := [], subscriptions := [], users := [] }
        trace := [] } :=
  c1_sync_unknown_customer_fails_clean envW
    { products := [], prices := [], customers := [], subscriptions := [], users := [] }
    "sub_w" "cus_missing" true rfl (by decide)

/-- C2: applying the same upsert twice with the identical payload leaves the
backing store in the same state as applying it once, for the product upsert,
the price upsert, and the subscription upsert performed by
`manageSubscriptionStatusChange` (keyed by the provider-issued id, full-row
replace). -/
theorem c2_upserts_idempotent (env : Env) (db : DB) (product : StripeProduct)
    (price : StripePrice) (subscriptionId customerId : String) :
    (upsertProductRecord env (upsertProductRecord env db product).db product).db
      = (upsertProductRecord env db product).db
    ∧ (upsertPriceRecord env (upsertPriceRecord env db price).db price).db
      = (upsertPriceRecord env db price).db
    ∧ (manageSubscriptionStatusChange env
        (manageSubscriptionStatusChange env db subscriptionId customerId false).db
        subscriptionId customerId false).db
      = (manageSubscriptionStatusChange env db subscriptionId customerId false).db := by
  refine ⟨?_, ?_, ?_⟩
  · cases h : env.productsUpsertFault with
    | some e => simp [upsertProductRecord, h]
    | none => simp [upsertProductRecord, h, upsertRow_idem]
  · cases h : env.pricesUpsertFault with
    | some e => simp [upsertPriceRecord, h]
    | none => simp [upsertPriceRecord, h, upsertRow_idem]
  · cases hrl : env.reverseLookupFault with
    | some e => simp [manageSubscriptionStatusChange, customersReverseLookup, hrl]
    | none =>
        cases hfind : db.customers.find? (fun c => c.stripe_customer_id = some customerId) with
        | none =>
            simp [manageSubscriptionStatusChange, customersReverseLookup, hrl, hfind]
        | some c =>
            cases hret : env.retrieveSubscription subscriptionId with
            | none =>
                simp [manageSubscriptionStatusChange, customersReverseLookup, hrl, hfind, hret]
            | some sub =>
                cases hitems : sub.items with
                | nil =>
                    simp [manageSubscriptionStatusChange, customersReverseLookup, hrl,
                      hfind, hret, hitems]
                | cons item0 rest =>
                    cases hsf : env.subscriptionsUpsertFault with
                    | some e =>
                        simp [manageSubscriptionStatusChange, customersReverseLookup, hrl,
                          hfind, hret, hitems, hsf]
                    | none =>
                        simp [manageSubscriptionStatusChange, customersReverseLookup, hrl,
                          hfind, hret, hitems, hsf, upsertRow_idem]

theorem copyBilling_subscriptions_eq (env : Env) (db : DB) (uuid : String)
    (pm : PaymentMethod) :
    (copyBillingDetailsToCustomer env db uuid pm).db.subscriptions = db.subscriptions := by
  unfold copyBillingDetailsToCustomer
  repeat' split
  all_goals rfl

theorem tsField_some_ne (s : Int) (h : s ≠ 0) :
    tsField (some s) = some ((toDateTime s).toISOString) := by
  simp [tsField, truthyInt, h]

theorem nullableFieldSpec_build (uuid : String) (sub : StripeSubscription) (item0 : SubItem) :
    NullableFieldSpec sub (buildSubscriptionRow uuid sub item0) := by
  unfold NullableFieldSpec
  refine ⟨?_, ?_, ?_, ?_, ?_, ?_, ?_, ?_, ?_, ?_, ?_, ?_, ?_, ?_, ?_⟩ <;>
    first
      | (intro s hs h; simp [buildSubscriptionRow, h, tsField_some_ne s hs])
      | (intro h; simp [buildSubscriptionRow, h, tsField, truthyInt])

theorem manage_subscriptions_eq
    (env : Env) (db : DB) (subscriptionId customerId : String) (createAction : Bool)
    (c : CustomerRow) (sub : StripeSubscription) (item0 : SubItem) (rest : List SubItem)
    (h1 : env.reverseLookupFault = none)
    (h2 : db.customers.find? (fun r => r.stripe_customer_id = some customerId) = some c)
    (h3 : env.retrieveSubscription subscriptionId = some sub)
    (h4 : sub.items = item0 :: rest)
    (h5 : env.subscriptionsUpsertFault = none) :
    (manageSubscriptionStatusChange env db subscriptionId customerId createAction).db.subscriptions
      = upsertRow SubscriptionRow.id (buildSubscriptionRow c.id sub item0) db.subscriptions := by
  have hlook : customersReverseLookup env db customerId = .ok c := by
    simp [customersReverseLookup, h1, h2]
  cases createAction with
  | false => simp [manageSubscriptionStatusChange, hlook, h3, h4, h5]
  | true =>
      cases hdpm : sub.default_payment_method with
      | none => simp [manageSubscriptionStatusChange, hlook, h3, h4, h5, hdpm]
      | some pm =>
          by_cases hid : c.id = ""
          · simp [manageSubscriptionStatusChange, hlook, h3, h4, h5, hdpm, hid]
          · simp [manageSubscriptionStatusChange, hlook, h3, h4, h5, hdpm, hid,
              copyBilling_subscriptions_eq]

/-- C3 counterexample: a fetched subscription that carries a present
`cancel_at` of exactly 0 epoch seconds is stored with `cancel_at = null`
rather than with the translated point in time, because the source guards
each nullable timestamp with JavaScript truthiness, under which 0 is falsy.
So a present timestamp is not always translated before storage. -/
theorem c3_zero_timestamp_counterexample :
    subW.cancel_at = some 0
    ∧ (manageSubscriptionStatusChange envW dbW "sub_w" "cus_w" false).result = .ok ()
    ∧ (findRow SubscriptionRow.id "sub_w"
        (manageSubscriptionStatusChange envW dbW "sub_w" "cus_w" false).db.subscriptions).map
        SubscriptionRow.cancel_at = some none
    ∧ some ((toDateTime 0).toISOString) ≠ (none : Option Timestamp) := by
  refine ⟨rfl, ?_, ?_, ?_⟩ <;> decide

/-- C3 (amended): for every fetched subscription, each nullable timestamp
field (cancel_at, canceled_at, ended_at, trial_start, trial_end) that is
absent on the provider object is stored as null and never coerced to an
epoch-zero timestamp; a present nonzero timestamp is translated from Unix
epoch seconds to an absolute, timezone-normalized point in time before
storage; and a present timestamp of exactly 0 is stored as null (JavaScript
truthiness), not translated. -/
theorem c3_nullable_timestamps_amended
    (env : Env) (db : DB) (subscriptionId customerId : String) (createAction : Bool)
    (c : CustomerRow) (sub : StripeSubscription) (item0 : SubItem) (rest : List SubItem)
    (h1 : env.reverseLookupFault = none)
    (h2 : db.customers.find? (fun r => r.stripe_customer_id = some customerId) = some c)
    (h3 : env.retrieveSubscription subscriptionId = some sub)
    (h4 : sub.items = item0 :: rest)
    (h5 : env.subscriptionsUpsertFault = none) :
    ∃ row, findRow SubscriptionRow.id sub.id
        (manageSubscriptionStatusChange env db subscriptionId customerId createAction).db.subscriptions
        = some row
      ∧ NullableFieldSpec sub row := by
  refine ⟨buildSubscriptionRow c.id sub item0, ?_, nullableFieldSpec_build c.id sub item0⟩
  rw [manage_subscriptions_eq env db subscriptionId customerId createAction c sub item0 rest
    h1 h2 h3 h4 h5]
  exact findRow_upsertRow SubscriptionRow.id (buildSubscriptionRow c.id sub item0) db.subscriptions

/-- C3 witness: the amended statement applied to the concrete fixtures. -/
theorem c3_nullable_timestamps_amended_witness :
    ∃ row, findRow SubscriptionRow.id subW.id
        (manageSubscriptionStatusChange envW dbW "sub_w" "cus_w" false).db.subscriptions
        = some row
      ∧ NullableFieldSpec subW row :=
  c3_nullable_timestamps_amended envW dbW "sub_w" "cus_w" false
    { id := "user_w", stripe_customer_id := some "cus_w" } subW { priceId := "price_w" } []
    rfl (by decide) (by decide) rfl rfl

/-- C4: when the billing details of the payment method are missing any of
name, phone or address, `copyBillingDetailsToCustomer` is a silent no-op:
it succeeds, performs no provider-side customer update, no local user
update, and leaves the store untouched. -/
theorem c4_propagate_billing_missing_details_noop
    (env : Env) (db : DB) (uuid : String) (pm : PaymentMethod)
    (h : pm.billing_details.name = none ∨ pm.billing_details.phone = none
        ∨ pm.billing_details.address = none) :
    copyBillingDetailsToCustomer env db uuid pm =
      { result := .ok (), db := db, trace := [] } := by
  unfold copyBillingDetailsToCustomer
  rcases h with h | h | h <;>
    cases hn : pm.billing_details.name <;>
    cases hp : pm.billing_details.phone <;>
    cases ha : pm.billing_details.address <;>
    simp_all

/-- C4 witness: a concrete payment method without a phone number. -/
theorem c4_propagate_billing_missing_details_noop_witness :
    copyBillingDetailsToCustomer envW dbW "user_w" pmNoPhone =
      { result := .ok (), db := dbW, trace := [] } :=
  c4_propagate_billing_missing_details_noop envW dbW "user_w" pmNoPhone
    (Or.inr (Or.inl rfl))

/-- C5: when the Customer row of the user is found and carries a non-empty
provider customer id, `createOrRetrieveCustomer` returns that id with no
provider call and no write, so a second call for the same user also issues
zero provider-create calls. -/
theorem c5_fast_path_no_provider_call
    (env : Env) (db : DB) (email uuid s : String) (c : CustomerRow)
    (h1 : env.customersLookupFault = none)
    (h2 : findRow CustomerRow.id uuid db.customers = some c)
    (h3 : c.stripe_customer_id = some s)
    (h4 : s ≠ "") :
    createOrRetrieveCustomer env db email uuid =
      { result := .ok s, db := db, trace := [] }
    ∧ (createOrRetrieveCustomer env
        (createOrRetrieveCustomer env db email uuid).db email uuid).trace = [] := by
  have hrun : createOrRetrieveCustomer env db email uuid =
      { result := .ok s, db := db, trace := [] } := by
    simp [createOrRetrieveCustomer, customersSelectById, h1, h2, h3, h4]
  exact ⟨hrun, by simp [hrun]⟩

/-- C5 witness: a concrete user already mapped to `cus_w`. -/
theorem c5_fast_path_no_provider_call_witness :
    createOrRetrieveCustomer envW dbW "ada@example.com" "user_w" =
      { result := .ok "cus_w", db := dbW, trace := [] }
    ∧ (createOrRetrieveCustomer envW
        (createOrRetrieveCustomer envW dbW "ada@example.com" "user_w").db
        "ada@example.com" "user_w").trace = [] :=
  c5_fast_path_no_provider_call envW dbW "ada@example.com" "user_w" "cus_w"
    { id := "user_w", stripe_customer_id := some "cus_w" }
    rfl (by decide) rfl (by decide)

/-- C6: any lookup error in `createOrRetrieveCustomer`, of any kind, takes
the same branch as a missing row: it triggers creation of a provider-side
customer followed by local persistence of the new mapping, and its result
and provider-call trace coincide with those of a run whose store has no
matching row. -/
theorem c6_lookup_error_triggers_create
    (env : Env) (db : DB) (email uuid : String) (e : DBError)
    (h1 : env.customersLookupFault = some e)
    (h2 : env.customersInsertFault = none) :
    (createOrRetrieveCustomer env db email uuid).trace
      = [Eff.stripeCreateCustomer [("supabaseUUID", uuid)]
          (if email ≠ "" then some email else none)]
    ∧ (createOrRetrieveCustomer env db email uuid).db.customers
      = db.customers ++ [{ id := uuid, stripe_customer_id := some env.stripeCreateCustomerId }]
    ∧ (createOrRetrieveCustomer env db email uuid).result = .ok env.stripeCreateCustomerId
    ∧ (createOrRetrieveCustomer env db email uuid).result
      = (createOrRetrieveCustomer { env with customersLookupFault := none }
          { db with customers := [] } email uuid).result
    ∧ (createOrRetrieveCustomer env db email uuid).trace
      = (createOrRetrieveCustomer { env with customersLookupFault := none }
          { db with customers := [] } email uuid).trace := by
  simp [createOrRetrieveCustomer, customersSelectById, h1, h2, findRow]

/-- C6 witness: a concrete injected storage fault on the lookup. -/
theorem c6_lookup_error_triggers_create_witness :
    (createOrRetrieveCustomer envFaultLookup dbW "ada@example.com" "user_w").result
      = .ok "cus_new"
    ∧ (createOrRetrieveCustomer envFaultLookup dbW "ada@example.com" "user_w").db.customers
      = dbW.customers ++ [{ id := "user_w", stripe_customer_id := some "cus_new" }] := by
  have h := c6_lookup_error_triggers_create envFaultLookup dbW "ada@example.com" "user_w"
    (.storageFault 3) rfl rfl
  refine ⟨?_, ?_⟩
  · rw [h.2.2.1]
    rfl
  · rw [h.2.1]
    rfl

/-- C7: the upserted price row derives `product_id` from the provider
reference when the product of the price is a direct string reference, and
records the empty string when the product is an expanded/embedded object. -/
theorem c7_price_product_id_derivation
    (env : Env) (db : DB) (price : StripePrice)
    (h : env.pricesUpsertFault = none) :
    ∃ row, findRow PriceRow.id price.id (upsertPriceRecord env db price).db.prices = some row
      ∧ (∀ s, price.product = ProductRef.ref s → row.product_id = s)
      ∧ (∀ obj, price.product = ProductRef.expanded obj → row.product_id = "") := by
  refine ⟨buildPriceRow price, ?_, ?_, ?_⟩
  · simp only [upsertPriceRecord, h]
    exact findRow_upsertRow PriceRow.id (buildPriceRow price) db.prices
  · intro s hs
    simp [buildPriceRow, hs]
  · intro obj hobj
    simp [buildPriceRow, hobj]

/-- C7 witness: a concrete price with a direct product reference. -/
theorem c7_price_product_id_derivation_witness :
    ∃ row, findRow PriceRow.id "price_w" (upsertPriceRecord envW dbW priceRefW).db.prices
        = some row
      ∧ row.product_id = "prod_w" := by
  obtain ⟨row, hfind, href, _⟩ := c7_price_product_id_derivation envW dbW priceRefW rfl
  exact ⟨row, hfind, href "prod_w" rfl⟩

theorem copyBilling_result_ne_typeError (env : Env) (db : DB) (uuid : String)
    (pm : PaymentMethod) :
    (copyBillingDetailsToCustomer env db uuid pm).result ≠ .error .typeError := by
  unfold copyBillingDetailsToCustomer
  repeat' split
  all_goals simp

/-- C8 counterexample: a creation event whose fetched subscription carries an
expanded default payment method, but whose Customer row stores an empty
local user id, does not invoke the Billing Detail Propagator: the run
succeeds with only the provider fetch in its trace and the user rows
untouched, because the source additionally requires the resolved uuid to be
truthy. -/
theorem c8_empty_uuid_counterexample :
    subW.default_payment_method.isSome = true
    ∧ (manageSubscriptionStatusChange envW dbEmptyUuid "sub_w" "cus_w" true).trace
      = [Eff.stripeRetrieveSubscription "sub_w"]
    ∧ (manageSubscriptionStatusChange envW dbEmptyUuid "sub_w" "cus_w" true).result = .ok ()
    ∧ (manageSubscriptionStatusChange envW dbEmptyUuid "sub_w" "cus_w" true).db.users
      = dbEmptyUuid.users := by
  refine ⟨rfl, ?_, ?_, ?_⟩ <;> decide

/-- C8 (amended): under a successful reverse lookup, provider fetch and
subscription upsert, the Billing Detail Propagator is invoked with the
resolved local user id if and only if the call is a creation event, the
fetched subscription carries an expanded default payment method, and the
resolved local user id is truthy (non-empty). -/
theorem c8_billing_propagator_invocation_amended
    (env : Env) (db : DB) (subscriptionId customerId : String) (createAction : Bool)
    (c : CustomerRow) (sub : StripeSubscription) (item0 : SubItem) (rest : List SubItem)
    (h1 : env.reverseLookupFault = none)
    (h2 : db.customers.find? (fun r => r.stripe_customer_id = some customerId) = some c)
    (h3 : env.retrieveSubscription subscriptionId = some sub)
    (h4 : sub.items = item0 :: rest)
    (h5 : env.subscriptionsUpsertFault = none) :
    (Eff.invokeBilling c.id
        ∈ (manageSubscriptionStatusChange env db subscriptionId customerId createAction).trace)
    ↔ (createAction = true ∧ sub.default_payment_method.isSome = true ∧ c.id ≠ "") := by
  have hlook : customersReverseLookup env db customerId = .ok c := by
    simp [customersReverseLookup, h1, h2]
  cases createAction with
  | false => simp [manageSubscriptionStatusChange, hlook, h3, h4, h5]
  | true =>
      cases hdpm : sub.default_payment_method with
      | none => simp [manageSubscriptionStatusChange, hlook, h3, h4, h5, hdpm]
      | some pm =>
          by_cases hid : c.id = ""
          · simp [manageSubscriptionStatusChange, hlook, h3, h4, h5, hdpm, hid]
          · simp [manageSubscriptionStatusChange, hlook, h3, h4, h5, hdpm, hid]

/-- C8 witness: the amended statement at a concrete creation event with a
non-empty resolved user id. -/
theorem c8_billing_propagator_invocation_amended_witness :
    Eff.invokeBilling "user_w"
      ∈ (manageSubscriptionStatusChange envW dbW "sub_w" "cus_w" true).trace := by
  have h := c8_billing_propagator_invocation_amended envW dbW "sub_w" "cus_w" true
    { id := "user_w", stripe_customer_id := some "cus_w" } subW { priceId := "price_w" } []
    rfl (by decide) (by decide) rfl rfl
  exact h.mpr ⟨rfl, rfl, by decide⟩

theorem copyBilling_result_db_agnostic (env : Env) (db1 db2 : DB) (uuid : String)
    (pm : PaymentMethod) :
    (copyBillingDetailsToCustomer env db1 uuid pm).result
      = (copyBillingDetailsToCustomer env db2 uuid pm).result := by
  unfold copyBillingDetailsToCustomer
  repeat' split
  all_goals simp_all

/-- C9: `manageSubscriptionStatusChange` is not atomic across the
subscription upsert and the billing propagation: on any creation event where
the subscription upsert succeeds and the subsequent
`copyBillingDetailsToCustomer` fails with any error (the provider-side
customer update or the local user update), that error propagates to the
caller while the already-written Subscription row remains committed in the
store. -/
theorem c9_partial_failure_keeps_subscription_row
    (env : Env) (db : DB) (subscriptionId customerId : String)
    (c : CustomerRow) (sub : StripeSubscription) (item0 : SubItem) (rest : List SubItem)
    (pm : PaymentMethod) (er : Err)
    (h1 : env.reverseLookupFault = none)
    (h2 : db.customers.find? (fun r => r.stripe_customer_id = some customerId) = some c)
    (h3 : env.retrieveSubscription subscriptionId = some sub)
    (h4 : sub.items = item0 :: rest)
    (h5 : env.subscriptionsUpsertFault = none)
    (h6 : c.id ≠ "")
    (h7 : sub.default_payment_method = some pm)
    (hfail : (copyBillingDetailsToCustomer env db c.id pm).result = .error er) :
    (manageSubscriptionStatusChange env db subscriptionId customerId true).result
      = .error er
    ∧ (manageSubscriptionStatusChange env db subscriptionId customerId true).db.subscriptions
      = upsertRow SubscriptionRow.id (buildSubscriptionRow c.id sub item0) db.subscriptions := by
  have hlook : customersReverseLookup env db customerId = .ok c := by
    simp [customersReverseLookup, h1, h2]
  have hall : ∀ dbx : DB, (copyBillingDetailsToCustomer env dbx c.id pm).result = .error er :=
    fun dbx => (copyBilling_result_db_agnostic env dbx db c.id pm).trans hfail
  constructor
  · simp [manageSubscriptionStatusChange, hlook, h3, h4, h5, h6, h7, hall]
  · exact manage_subscriptions_eq env db subscriptionId customerId true
      c sub item0 rest h1 h2 h3 h4 h5

/-- C9 witness: a concrete creation event where the provider-side customer
update inside the billing propagation fails. -/
theorem c9_partial_failure_keeps_subscription_row_witness :
    (manageSubscriptionStatusChange envFaultStripe dbW "sub_w" "cus_w" true).result
      = .error .stripeError
    ∧ (manageSubscriptionStatusChange envFaultStripe dbW "sub_w" "cus_w" true).db.subscriptions
      = upsertRow SubscriptionRow.id
          (buildSubscriptionRow "user_w" subW { priceId := "price_w" }) dbW.subscriptions :=
  c9_partial_failure_keeps_subscription_row envFaultStripe dbW "sub_w" "cus_w"
    { id := "user_w", stripe_customer_id := some "cus_w" } subW { priceId := "price_w" } []
    pmW .stripeError
    rfl (by decide) (by decide) rfl rfl (by decide) rfl (by decide)

/-- C10: under a successful reverse lookup and provider fetch,
`manageSubscriptionStatusChange` reaches the unguarded read of
`items.data[0].price.id`: it ends in the runtime type error (with no write)
exactly when the fetched subscription has an empty items list, so under the
unstated precondition of at least one subscription item that error branch is
unreachable. -/
theorem c10_items_index_guard
    (env : Env) (db : DB) (subscriptionId customerId : String) (createAction : Bool)
    (c : CustomerRow) (sub : StripeSubscription)
    (h1 : env.reverseLookupFault = none)
    (h2 : db.customers.find? (fun r => r.stripe_customer_id = some customerId) = some c)
    (h3 : env.retrieveSubscription subscriptionId = some sub) :
    ((manageSubscriptionStatusChange env db subscriptionId customerId createAction).result
        = .error .typeError
      ∧ (manageSubscriptionStatusChange env db subscriptionId customerId createAction).db = db)
    ↔ sub.items = [] := by
  have hlook : customersReverseLookup env db customerId = .ok c := by
    simp [customersReverseLookup, h1, h2]
  cases hitems : sub.items with
  | nil =>
      simp [manageSubscriptionStatusChange, hlook, h3, hitems]
  | cons item0 rest =>
      have hne : (manageSubscriptionStatusChange env db subscriptionId customerId
          createAction).result ≠ .error .typeError := by
        cases hsf : env.subscriptionsUpsertFault with
        | some e => simp [manageSubscriptionStatusChange, hlook, h3, hitems, hsf]
        | none =>
            cases createAction with
            | false => simp [manageSubscriptionStatusChange, hlook, h3, hitems, hsf]
            | true =>
                cases hdpm : sub.default_payment_method with
                | none => simp [manageSubscriptionStatusChange, hlook, h3, hitems, hsf, hdpm]
                | some pm =>
                    by_cases hid : c.id = ""
                    · simp [manageSubscriptionStatusChange, hlook, h3, hitems, hsf, hdpm, hid]
                    · simp [manageSubscriptionStatusChange, hlook, h3, hitems, hsf, hdpm, hid,
                        copyBilling_result_ne_typeError]
      constructor
      · rintro ⟨hres, _⟩
        exact absurd hres hne
      · intro hnil
        exact absurd hnil (List.cons_ne_nil item0 rest)

/-- C10 witness: a concrete fetched subscription with an empty items list
ends in the runtime type error. -/
theorem c10_items_index_guard_witness :
    (manageSubscriptionStatusChange envE dbE "sub_e" "cus_e" false).result
      = .error .typeError := by
  have h := c10_items_index_guard envE dbE "sub_e" "cus_e" false
    { id := "user_e", stripe_customer_id := some "cus_e" } subE
    rfl (by decide) (by decide)
  exact (h.mpr rfl).1
